import Mathlib

/-!
Verification of the Superside globe visualization's data/animation logic.

The JavaScript sources are shallowly embedded: JS numbers become real
numbers, JS `Set` becomes `Finset String`, JS `Map` objects become
association lists or pointwise-updated functions, and every call to
`Math.random()` / `Date.now()` is drawn from an explicit oracle passed as
an argument, so that theorems can quantify over every outcome of the
random draws.
-/

namespace Superside

/-- A record of the country dataset: `{ name, count, coordinates: {lat, lng} }`
(the nested `coordinates` object is flattened into the two fields `lat`, `lng`). -/
structure Country where
  name : String
  count : ℕ
  lat : ℝ
  lng : ℝ

/-- JS `Math.atan2(y, x)`: the angle of the point `(x, y)`, following the
standard branch definition used by JavaScript engines. -/
noncomputable def atan2 (y x : ℝ) : ℝ :=
  if 0 < x then Real.arctan (y / x)
  else if x < 0 ∧ 0 ≤ y then Real.arctan (y / x) + Real.pi
  else if x < 0 then Real.arctan (y / x) - Real.pi
  else if 0 < y then Real.pi / 2
  else if y < 0 then -(Real.pi / 2)
  else 0

/-- `calculateDistance(lat1, lng1, lat2, lng2)` from the connections module:
haversine great-circle distance on a sphere of radius 6371 km. -/
noncomputable def calculateDistance (lat1 lng1 lat2 lng2 : ℝ) : ℝ :=
  let R : ℝ := 6371
  let dLat := (lat2 - lat1) * Real.pi / 180
  let dLng := (lng2 - lng1) * Real.pi / 180
  let a := Real.sin (dLat / 2) * Real.sin (dLat / 2) +
    Real.cos (lat1 * Real.pi / 180) * Real.cos (lat2 * Real.pi / 180) *
    Real.sin (dLng / 2) * Real.sin (dLng / 2)
  let c := 2 * atan2 (Real.sqrt a) (Real.sqrt (1 - a))
  R * c

/-- `isTransPacificRoute(startLng, endLng, startLat, endLat)`.  Note that the
source's `isOceania` closure reads the outer variable `endLat` no matter which
longitude it is applied to; the embedding reproduces that exactly. -/
noncomputable def isTransPacificRoute (startLng endLng startLat endLat : ℝ) : Bool :=
  let isLatinAmerica := fun (lng : ℝ) => decide (lng ≥ -120) && decide (lng ≤ -30)
  let isAsia := fun (lng : ℝ) => decide (lng ≥ 95) && decide (lng ≤ 180)
  let isOceania := fun (lng : ℝ) =>
    decide (lng ≥ 110) && decide (lng ≤ 180) && decide (endLat ≥ -50) && decide (endLat ≤ -10)
  let fromLatAm := isLatinAmerica startLng
  let toAsiaPacific := isAsia endLng || isOceania endLng
  let fromAsiaPacific := isAsia startLng || isOceania startLng
  let toLatAm := isLatinAmerica endLng
  (fromLatAm && toAsiaPacific) || (fromAsiaPacific && toLatAm)

/-- The spec's "Latin America" longitude band `[-120, -30]`. -/
def inLatinAmericaBand (lng : ℝ) : Prop := -120 ≤ lng ∧ lng ≤ -30

/-- The spec's "Asia" longitude band `[95, 180]`. -/
def inAsiaBand (lng : ℝ) : Prop := 95 ≤ lng ∧ lng ≤ 180

/-- The spec's "Oceania" band: longitude in `[110, 180]` and the
Oceania-side latitude in `[-50, -10]`. -/
def inOceaniaBand (lng lat : ℝ) : Prop := (110 ≤ lng ∧ lng ≤ 180) ∧ (-50 ≤ lat ∧ lat ≤ -10)

/-- The spec's wording of `isTransPacific`: one endpoint's longitude in the
Latin-America band and the other in the Asia band or the (latitude-restricted)
Oceania band, in either direction, each Oceania test using its own endpoint's
latitude. -/
def isTransPacificSpec (startLng endLng startLat endLat : ℝ) : Prop :=
  (inLatinAmericaBand startLng ∧ (inAsiaBand endLng ∨ inOceaniaBand endLng endLat)) ∨
  ((inAsiaBand startLng ∨ inOceaniaBand startLng startLat) ∧ inLatinAmericaBand endLng)

/-- Both the code's predicate and the spec's collapse to the same
latitude-free condition, because the Oceania longitude band `[110, 180]`
is contained in the Asia band `[95, 180]`. -/
lemma isTransPacificRoute_iff (startLng endLng startLat endLat : ℝ) :
    isTransPacificRoute startLng endLng startLat endLat = true ↔
      (inLatinAmericaBand startLng ∧ inAsiaBand endLng) ∨
        (inAsiaBand startLng ∧ inLatinAmericaBand endLng) := by
  simp only [isTransPacificRoute, Bool.or_eq_true, Bool.and_eq_true, decide_eq_true_eq,
    inLatinAmericaBand, inAsiaBand, ge_iff_le]
  constructor
  · rintro (⟨hLA, (hAs | hOc)⟩ | ⟨(hAs | hOc), hLA⟩)
    · exact Or.inl ⟨⟨hLA.1, hLA.2⟩, hAs⟩
    · exact Or.inl ⟨⟨hLA.1, hLA.2⟩, ⟨by linarith [hOc.1.1.1], hOc.1.1.2⟩⟩
    · exact Or.inr ⟨hAs, ⟨hLA.1, hLA.2⟩⟩
    · exact Or.inr ⟨⟨by linarith [hOc.1.1.1], hOc.1.1.2⟩, ⟨hLA.1, hLA.2⟩⟩
  · rintro (⟨hLA, hAs⟩ | ⟨hAs, hLA⟩)
    · exact Or.inl ⟨⟨hLA.1, hLA.2⟩, Or.inl hAs⟩
    · exact Or.inr ⟨Or.inl hAs, ⟨hLA.1, hLA.2⟩⟩

/-- The spec-worded predicate collapses to the same latitude-free condition. -/
lemma isTransPacificSpec_iff (startLng endLng startLat endLat : ℝ) :
    isTransPacificSpec startLng endLng startLat endLat ↔
      (inLatinAmericaBand startLng ∧ inAsiaBand endLng) ∨
        (inAsiaBand startLng ∧ inLatinAmericaBand endLng) := by
  simp only [isTransPacificSpec, inLatinAmericaBand, inAsiaBand, inOceaniaBand]
  constructor
  · rintro (⟨hLA, (hAs | hOc)⟩ | ⟨(hAs | hOc), hLA⟩)
    · exact Or.inl ⟨hLA, hAs⟩
    · exact Or.inl ⟨hLA, ⟨by linarith [hOc.1.1], hOc.1.2⟩⟩
    · exact Or.inr ⟨hAs, hLA⟩
    · exact Or.inr ⟨⟨by linarith [hOc.1.1], hOc.1.2⟩, hLA⟩
  · rintro (⟨hLA, hAs⟩ | ⟨hAs, hLA⟩)
    · exact Or.inl ⟨hLA, Or.inl hAs⟩
    · exact Or.inr ⟨Or.inl hAs, hLA⟩

/-- The haversine `a`-term is symmetric under swapping the two points. -/
lemma haversine_term_symm (lat1 lng1 lat2 lng2 : ℝ) :
    Real.sin ((lat2 - lat1) * Real.pi / 180 / 2) * Real.sin ((lat2 - lat1) * Real.pi / 180 / 2) +
      Real.cos (lat1 * Real.pi / 180) * Real.cos (lat2 * Real.pi / 180) *
      Real.sin ((lng2 - lng1) * Real.pi / 180 / 2) * Real.sin ((lng2 - lng1) * Real.pi / 180 / 2) =
    Real.sin ((lat1 - lat2) * Real.pi / 180 / 2) * Real.sin ((lat1 - lat2) * Real.pi / 180 / 2) +
      Real.cos (lat2 * Real.pi / 180) * Real.cos (lat1 * Real.pi / 180) *
      Real.sin ((lng1 - lng2) * Real.pi / 180 / 2) * Real.sin ((lng1 - lng2) * Real.pi / 180 / 2) := by
  have h1 : (lat1 - lat2) * Real.pi / 180 / 2 = -((lat2 - lat1) * Real.pi / 180 / 2) := by ring
  have h2 : (lng1 - lng2) * Real.pi / 180 / 2 = -((lng2 - lng1) * Real.pi / 180 / 2) := by ring
  rw [h1, h2, Real.sin_neg, Real.sin_neg]
  ring

/-- C8: `calculateDistance` is symmetric in its two points, and the distance
from any point to itself is zero. -/
theorem calculateDistance_symm_and_self_zero :
    (∀ lat1 lng1 lat2 lng2 : ℝ,
      calculateDistance lat1 lng1 lat2 lng2 = calculateDistance lat2 lng2 lat1 lng1) ∧
    (∀ lat lng : ℝ, calculateDistance lat lng lat lng = 0) := by
  constructor
  · intro lat1 lng1 lat2 lng2
    simp only [calculateDistance]
    rw [haversine_term_symm lat1 lng1 lat2 lng2]
  · intro lat lng
    norm_num [calculateDistance, atan2, Real.arctan_zero]

/-- C7: `isTransPacificRoute` is symmetric under swapping the roles of the
two endpoints, and it holds exactly when one endpoint's longitude is in the
Latin-America band and the other's is in the Asia band or the Oceania band,
in either direction (the spec's characterization). -/
theorem isTransPacificRoute_symm_and_spec :
    (∀ startLng endLng startLat endLat : ℝ,
      isTransPacificRoute startLng endLng startLat endLat =
        isTransPacificRoute endLng startLng endLat startLat) ∧
    (∀ startLng endLng startLat endLat : ℝ,
      isTransPacificRoute startLng endLng startLat endLat = true ↔
        isTransPacificSpec startLng endLng startLat endLat) := by
  constructor
  · intro startLng endLng startLat endLat
    rw [Bool.eq_iff_iff, isTransPacificRoute_iff, isTransPacificRoute_iff]
    tauto
  · intro startLng endLng startLat endLat
    rw [isTransPacificRoute_iff, isTransPacificSpec_iff]

/-- C10: the result of `isTransPacificRoute` does not depend on either
latitude argument. -/
theorem isTransPacificRoute_lat_independent :
    ∀ startLng endLng startLat endLat startLat' endLat' : ℝ,
      isTransPacificRoute startLng endLng startLat endLat =
        isTransPacificRoute startLng endLng startLat' endLat' := by
  intro startLng endLng startLat endLat startLat' endLat'
  rw [Bool.eq_iff_iff, isTransPacificRoute_iff, isTransPacificRoute_iff]

/-! ## Connection generator (`generateConnections`) -/

/-- A generated arc record, exactly the object literal pushed onto
`connections`. -/
structure Connection where
  startLat : ℝ
  startLng : ℝ
  endLat : ℝ
  endLng : ℝ
  startCountry : String
  endCountry : String
  startCount : ℕ
  endCount : ℕ
  distance : ℝ
  category : Option String
  categoryColor : Option String

/-- The oracle supplying every uncontrolled input of a `generateConnections`
call: `pairRnd c1 c2` is the `Math.random()` draw made while processing the
pair of countries named `c1`, `c2` (country names are unique in the dataset,
so a pair is processed at most once per call), `pairNow c1 c2` is the
`Date.now()` reading at that pair, and `pickRnd c` is the `Math.random()`
draw used to pick a forced partner for the isolated country named `c`. -/
structure RandomOracle where
  pairRnd : String → String → ℝ
  pairNow : String → String → ℝ
  pickRnd : String → ℝ

/-- `str.split('').reduce((acc, ch) => acc + ch.charCodeAt(0), 0)`:
the sum of the UTF-16 code units of a string (the dataset names are all in
the basic plane, where code units and code points coincide). -/
def charSum (s : String) : ℕ := (s.data.map Char.toNat).sum

/-- JS `x % m` for a nonnegative dividend and positive divisor, the only way
it is used here (`combinedSeed` is a sum of nonnegative terms). -/
noncomputable def jsMod (x m : ℝ) : ℝ := x - m * (⌊x / m⌋ : ℤ)

/-- `combinedSeed = (seed1 + seed2 + seed3) % 10000` for a pair of
countries, where `seed1`/`seed2` are the char-code sums of the two name
concatenations and `seed3 = |lat1 * lng2|`. -/
noncomputable def pairSeed (c1 c2 : Country) : ℝ :=
  jsMod ((charSum (c1.name ++ c2.name) : ℝ) + (charSum (c2.name ++ c1.name) : ℝ) +
    |c1.lat * c2.lng|) 10000

/-- The sine-hash pseudo-random draw for a pair:
`Math.abs(pseudoRandom - Math.floor(pseudoRandom))` with
`pseudoRandom = Math.sin(combinedSeed * 0.001) * 10000`. -/
noncomputable def pairRandomValue (c1 c2 : Country) : ℝ :=
  let pseudoRandom := Real.sin (pairSeed c1 c2 * 0.001) * 10000
  |pseudoRandom - (⌊pseudoRandom⌋ : ℤ)|

/-- The connection probability computed for a pair (lines 74-100 of the
connections module), before the time-based perturbation.  `conn1`/`conn2`
are the two countries' current connection counters and `rnd` is the
`Math.random()` value (in `[0,1)`) consumed in the non-lone-wolf branch. -/
noncomputable def pairProbability (isLoneWolfMode : Bool) (c1 c2 : Country)
    (conn1 conn2 : ℕ) (distance rnd : ℝ) : ℝ :=
  if isLoneWolfMode = true ∨ c1.count = 1 ∨ c2.count = 1 then
    if conn1 = 0 ∨ conn2 = 0 then 0.10 else 0.05
  else
    let countFactor := min (((c1.count : ℝ) + (c2.count : ℝ)) / 400) 0.03
    let distanceFactor := max 0.01 (1 - distance / 18000)
    let randomFactor := rnd * 0.02
    let probability := 0.01 + countFactor + distanceFactor * 0.015 + randomFactor
    let probability := if conn1 < 2 ∨ conn2 < 2 then probability + 0.03 else probability
    min (max probability 0.01) 0.08

/-- The final threshold compared against the pseudo-random draw:
the probability plus the time-based variation
`Math.sin(Date.now() * 0.0001 + combinedSeed) * 0.01`. -/
noncomputable def pairThreshold (isLoneWolfMode : Bool) (c1 c2 : Country)
    (conn1 conn2 : ℕ) (distance rnd now : ℝ) : ℝ :=
  pairProbability isLoneWolfMode c1 c2 conn1 conn2 distance rnd +
    Real.sin (now * 0.0001 + pairSeed c1 c2) * 0.01

/-- `activeCategory && categories[activeCategory] ? categories[activeCategory].color : null`,
with the category table abstracted as a partial map `cats` from category id
to color. -/
def categoryColorOf (activeCategory : Option String) (cats : String → Option String) :
    Option String :=
  match activeCategory with
  | some id => cats id
  | none => none

/-- Longitude unwrapping for trans-Pacific routes (lines 115-131): forces
the rendered arc to cross the Pacific by shifting one endpoint by -360°. -/
noncomputable def unwrapLongitudes (isTransPacific : Bool) (startLng endLng : ℝ) : ℝ × ℝ :=
  if isTransPacific then
    if startLng < 0 ∧ 0 < endLng then
      (if |endLng - startLng| > 180 then
        (if startLng < -150 then startLng else startLng - 360) else startLng, endLng)
    else if 0 < startLng ∧ endLng < 0 then
      (startLng, if |startLng - endLng| > 180 then
        (if endLng < -150 then endLng else endLng - 360) else endLng)
    else (startLng, endLng)
  else (startLng, endLng)

/-- `countryConnections.set(n, countryConnections.get(n) + 1)`.  The JS map
is initialised to 0 for every active country and only active countries'
names are ever queried, so it is modelled as a pointwise-updated function
that is 0 everywhere initially. -/
def bumpCounter (counters : String → ℕ) (n : String) : String → ℕ :=
  fun m => if m = n then counters n + 1 else counters m

/-- The loop state of `generateConnections`: the `connections` array and the
`countryConnections` counter map. -/
structure GenState where
  conns : List Connection
  counters : String → ℕ

/-- All ordered pairs `(l[i], l[j])` with `i < j`, in the traversal order of
the double loop `for i ... for j = i+1 ...`. -/
def orderedPairs {α : Type} : List α → List (α × α)
  | [] => []
  | x :: xs => xs.map (fun y => (x, y)) ++ orderedPairs xs

/-- The body of the double loop (lines 56-151): decide whether the pair
connects and, if so, push the arc and bump both counters. -/
noncomputable def connStep (oracle : RandomOracle) (activeCategory : Option String)
    (cats : String → Option String) (isLoneWolfMode : Bool)
    (st : GenState) (p : Country × Country) : GenState :=
  let c1 := p.1
  let c2 := p.2
  let distance := calculateDistance c1.lat c1.lng c2.lat c2.lng
  let threshold := pairThreshold isLoneWolfMode c1 c2
    (st.counters c1.name) (st.counters c2.name) distance
    (oracle.pairRnd c1.name c2.name) (oracle.pairNow c1.name c2.name)
  if pairRandomValue c1 c2 < threshold then
    let isTransPacific := isTransPacificRoute c1.lng c2.lng c1.lat c2.lat
    let lngs := unwrapLongitudes isTransPacific c1.lng c2.lng
    { conns := st.conns ++ [{
        startLat := c1.lat, startLng := lngs.1, endLat := c2.lat, endLng := lngs.2,
        startCountry := c1.name, endCountry := c2.name,
        startCount := c1.count, endCount := c2.count, distance := distance,
        category := activeCategory,
        categoryColor := categoryColorOf activeCategory cats }],
      counters := bumpCounter (bumpCounter st.counters c1.name) c2.name }
  else
    st

/-- One step of the forced-connection post-pass (lines 157-181): an isolated
country is connected to a pseudo-randomly chosen other active country.
`Math.floor(Math.random() * length)` always lands in range for a draw in
`[0,1)`; the out-of-range `getD` default is never reached then. -/
noncomputable def forcedStep (oracle : RandomOracle) (activeCategory : Option String)
    (cats : String → Option String) (activeCountries : List Country)
    (conns : List Connection) (isolatedCountry : Country) : List Connection :=
  let potentialPartners := activeCountries.filter
    (fun country => decide ¬ country.name = isolatedCountry.name)
  if potentialPartners.isEmpty then conns
  else
    let partner := potentialPartners.getD
      (⌊oracle.pickRnd isolatedCountry.name * (potentialPartners.length : ℝ)⌋).toNat
      (potentialPartners.headD isolatedCountry)
    conns ++ [{
      startLat := isolatedCountry.lat, startLng := isolatedCountry.lng,
      endLat := partner.lat, endLng := partner.lng,
      startCountry := isolatedCountry.name, endCountry := partner.name,
      startCount := isolatedCountry.count, endCount := partner.count,
      distance := calculateDistance isolatedCountry.lat isolatedCountry.lng
        partner.lat partner.lng,
      category := activeCategory,
      categoryColor := categoryColorOf activeCategory cats }]

/-- `generateConnections(countryData, enabledCountriesSet, activeCategory)`,
with the imported category table abstracted as the color map `cats` and the
uncontrolled inputs supplied by `oracle`. -/
noncomputable def generateConnections (countryData : List Country)
    (enabledCountriesSet : Finset String) (activeCategory : Option String)
    (cats : String → Option String) (oracle : RandomOracle) : List Connection :=
  let activeCountries := countryData.filter
    (fun country => decide (country.name ∈ enabledCountriesSet))
  let isLoneWolfMode := decide (activeCategory = some "lone_wolf")
  let st := (orderedPairs activeCountries).foldl
    (connStep oracle activeCategory cats isLoneWolfMode) ⟨[], fun _ => 0⟩
  let isolatedCountries := activeCountries.filter
    (fun country => st.counters country.name == 0)
  isolatedCountries.foldl (forcedStep oracle activeCategory cats activeCountries) st.conns

/-- C4: in the non-lone-wolf branch (active category is not `lone_wolf` and
neither country has count 1), the probability equals
`clamp(0.01 + min((countA+countB)/400, 0.03) + 0.015·max(0.01, 1 − d/18000)
+ rnd·0.02 + (0.03 if either endpoint has < 2 connections), 0.01, 0.08)`,
the random term lies in `[0, 0.02)`, the time-seeded sinusoidal perturbation
has magnitude at most `0.01`, and the final threshold lies in `[0, 0.09]`. -/
theorem pairThreshold_formula_and_bounds (c1 c2 : Country) (conn1 conn2 : ℕ)
    (d r now : ℝ) (h1 : c1.count ≠ 1) (h2 : c2.count ≠ 1) (hr0 : 0 ≤ r) (hr1 : r < 1) :
    pairProbability false c1 c2 conn1 conn2 d r =
      min (max (0.01 + min (((c1.count : ℝ) + (c2.count : ℝ)) / 400) 0.03 +
        0.015 * max 0.01 (1 - d / 18000) + r * 0.02 +
        (if conn1 < 2 ∨ conn2 < 2 then 0.03 else 0)) 0.01) 0.08 ∧
    (0 ≤ r * 0.02 ∧ r * 0.02 < 0.02) ∧
    |Real.sin (now * 0.0001 + pairSeed c1 c2) * 0.01| ≤ 0.01 ∧
    (0 ≤ pairThreshold false c1 c2 conn1 conn2 d r now ∧
      pairThreshold false c1 c2 conn1 conn2 d r now ≤ 0.09) := by
  have hcond : ¬ ((false : Bool) = true ∨ c1.count = 1 ∨ c2.count = 1) := by
    simp [h1, h2]
  have hsin : -1 ≤ Real.sin (now * 0.0001 + pairSeed c1 c2) ∧
      Real.sin (now * 0.0001 + pairSeed c1 c2) ≤ 1 :=
    ⟨Real.neg_one_le_sin _, Real.sin_le_one _⟩
  have hP : pairProbability false c1 c2 conn1 conn2 d r =
      min (max (0.01 + min (((c1.count : ℝ) + (c2.count : ℝ)) / 400) 0.03 +
        0.015 * max 0.01 (1 - d / 18000) + r * 0.02 +
        (if conn1 < 2 ∨ conn2 < 2 then 0.03 else 0)) 0.01) 0.08 := by
    simp only [pairProbability, if_neg hcond]
    by_cases hc : conn1 < 2 ∨ conn2 < 2 <;> simp only [if_pos, if_neg, hc, if_true, if_false] <;>
      ring_nf
  refine ⟨hP, ⟨by positivity, by linarith⟩, ?_, ?_, ?_⟩
  · rw [abs_mul]
    have : |Real.sin (now * 0.0001 + pairSeed c1 c2)| ≤ 1 := abs_le.mpr hsin
    calc |Real.sin (now * 0.0001 + pairSeed c1 c2)| * |(0.01 : ℝ)|
        ≤ 1 * |(0.01 : ℝ)| := by
          exact mul_le_mul_of_nonneg_right this (abs_nonneg _)
      _ ≤ 0.01 := by rw [one_mul]; exact le_of_eq (abs_of_nonneg (by norm_num))
  · have hPlo : (0.01 : ℝ) ≤ pairProbability false c1 c2 conn1 conn2 d r := by
      rw [hP]
      exact le_min (le_max_right _ _) (by norm_num)
    simp only [pairThreshold]
    nlinarith [hsin.1, hsin.2]
  · have hPhi : pairProbability false c1 c2 conn1 conn2 d r ≤ 0.08 := by
      rw [hP]; exact min_le_right _ _
    simp only [pairThreshold]
    nlinarith [hsin.1, hsin.2]

/-- Witness for C4: the threshold bound at a concrete pair of countries with
counts 2 and 3, zero counters, zero distance, and zero random/time draws. -/
theorem pairThreshold_formula_and_bounds_witness :
    0 ≤ pairThreshold false ⟨"A", 2, 0, 0⟩ ⟨"B", 3, 0, 0⟩ 0 0 0 0 0 ∧
      pairThreshold false ⟨"A", 2, 0, 0⟩ ⟨"B", 3, 0, 0⟩ 0 0 0 0 0 ≤ 0.09 :=
  (pairThreshold_formula_and_bounds ⟨"A", 2, 0, 0⟩ ⟨"B", 3, 0, 0⟩ 0 0 0 0 0
    (by decide) (by decide) le_rfl (by norm_num)).2.2.2

/-- A list whose images under `f` are pairwise distinct yet pairwise equal
has at most one element. -/
lemma length_le_one_of_nodup_map {α β : Type} (f : α → β) :
    ∀ l : List α, (l.map f).Nodup → (∀ a ∈ l, ∀ b ∈ l, f a = f b) → l.length ≤ 1
  | [], _, _ => by simp
  | [_], _, _ => by simp
  | a :: b :: t, hnd, hall => by
    exfalso
    have hab : f a = f b := hall a (by simp) b (by simp)
    have : ¬ f a ∈ (b :: t).map f := (List.nodup_cons.mp (by simpa using hnd)).1
    exact this (by simp [hab])

/-- If at most one country survives the enabled-set filter, both the pair
loop and the forced-connection post-pass contribute nothing. -/
lemma generateConnections_eq_nil_of_active_le_one (countryData : List Country)
    (enabledCountriesSet : Finset String) (activeCategory : Option String)
    (cats : String → Option String) (oracle : RandomOracle)
    (h : (countryData.filter
      (fun country => decide (country.name ∈ enabledCountriesSet))).length ≤ 1) :
    generateConnections countryData enabledCountriesSet activeCategory cats oracle = [] := by
  simp only [generateConnections]
  generalize hac : countryData.filter
    (fun country => decide (country.name ∈ enabledCountriesSet)) = l at h
  match l, h with
  | [], _ => simp [orderedPairs]
  | [c], _ => simp [orderedPairs, forcedStep]

/-- C3: with dataset names pairwise distinct, an enabled set of size 0 or 1
makes `generateConnections` return the empty list, whatever the active
category and the random draws. -/
theorem generateConnections_empty_of_small_enabled (countryData : List Country)
    (enabledCountriesSet : Finset String) (activeCategory : Option String)
    (cats : String → Option String) (oracle : RandomOracle)
    (hnd : (countryData.map Country.name).Nodup)
    (hcard : enabledCountriesSet.card ≤ 1) :
    generateConnections countryData enabledCountriesSet activeCategory cats oracle = [] := by
  apply generateConnections_eq_nil_of_active_le_one
  apply length_le_one_of_nodup_map Country.name
  · exact hnd.sublist ((List.filter_sublist _).map _)
  · intro a ha b hb
    have hae : a.name ∈ enabledCountriesSet := by simpa using List.of_mem_filter ha
    have hbe : b.name ∈ enabledCountriesSet := by simpa using List.of_mem_filter hb
    exact Finset.card_le_one.mp hcard _ hae _ hbe

/-- Witness for C3: a two-country dataset with a singleton enabled set
yields no connections. -/
theorem generateConnections_empty_of_small_enabled_witness :
    generateConnections [⟨"A", 1, 0, 0⟩, ⟨"B", 2, 10, 20⟩] {"A"} (some "lone_wolf")
      (fun _ => none) ⟨fun _ _ => 0, fun _ _ => 0, fun _ => 0⟩ = [] :=
  generateConnections_empty_of_small_enabled _ _ _ _ _ (by decide) (by decide)

/-- A positive counter for a name witnesses a pushed arc touching that name:
`connStep` preserves this. -/
lemma connStep_touch (oracle : RandomOracle) (activeCategory : Option String)
    (cats : String → Option String) (lwm : Bool) (st : GenState) (p : Country × Country)
    (H : ∀ n, st.counters n ≠ 0 →
      ∃ conn ∈ st.conns, conn.startCountry = n ∨ conn.endCountry = n) :
    ∀ n, (connStep oracle activeCategory cats lwm st p).counters n ≠ 0 →
      ∃ conn ∈ (connStep oracle activeCategory cats lwm st p).conns,
        conn.startCountry = n ∨ conn.endCountry = n := by
  intro n hn
  simp only [connStep] at hn ⊢
  by_cases hdraw : pairRandomValue p.1 p.2 < pairThreshold lwm p.1 p.2
      (st.counters p.1.name) (st.counters p.2.name)
      (calculateDistance p.1.lat p.1.lng p.2.lat p.2.lng)
      (oracle.pairRnd p.1.name p.2.name) (oracle.pairNow p.1.name p.2.name)
  · rw [if_pos hdraw] at hn ⊢
    by_cases hn2 : n = p.2.name
    · exact ⟨_, List.mem_append_right _ (List.mem_singleton_self _), Or.inr hn2.symm⟩
    · by_cases hn1 : n = p.1.name
      · exact ⟨_, List.mem_append_right _ (List.mem_singleton_self _), Or.inl hn1.symm⟩
      · have hold : st.counters n ≠ 0 := by
          simpa [bumpCounter, hn1, hn2] using hn
        obtain ⟨conn, hmem, htouch⟩ := H n hold
        exact ⟨conn, List.mem_append_left _ hmem, htouch⟩
  · rw [if_neg hdraw] at hn ⊢
    exact H n hn

/-- The pair loop preserves the counter/arc relation. -/
lemma foldl_connStep_touch (oracle : RandomOracle) (activeCategory : Option String)
    (cats : String → Option String) (lwm : Bool) :
    ∀ (ps : List (Country × Country)) (st : GenState),
      (∀ n, st.counters n ≠ 0 →
        ∃ conn ∈ st.conns, conn.startCountry = n ∨ conn.endCountry = n) →
      ∀ n, (ps.foldl (connStep oracle activeCategory cats lwm) st).counters n ≠ 0 →
        ∃ conn ∈ (ps.foldl (connStep oracle activeCategory cats lwm) st).conns,
          conn.startCountry = n ∨ conn.endCountry = n := by
  intro ps
  induction ps with
  | nil => intro st H; exact H
  | cons p rest ih =>
    intro st H
    exact ih (connStep oracle activeCategory cats lwm st p)
      (connStep_touch oracle activeCategory cats lwm st p H)

/-- The forced-connection pass only appends arcs. -/
lemma mem_foldl_forcedStep (oracle : RandomOracle) (activeCategory : Option String)
    (cats : String → Option String) (activeCountries : List Country) :
    ∀ (l : List Country) (conns : List Connection) (conn : Connection),
      conn ∈ conns →
      conn ∈ l.foldl (forcedStep oracle activeCategory cats activeCountries) conns := by
  intro l
  induction l with
  | nil => intro conns conn h; simpa using h
  | cons iso rest ih =>
    intro conns conn h
    apply ih
    simp only [forcedStep]
    split
    · exact h
    · exact List.mem_append_left _ h

/-- If an isolated country has a potential partner, the forced pass gives
it an arc whose `startCountry` is that country. -/
lemma foldl_forcedStep_touches (oracle : RandomOracle) (activeCategory : Option String)
    (cats : String → Option String) (activeCountries : List Country) :
    ∀ (l : List Country) (conns : List Connection) (c : Country), c ∈ l →
      activeCountries.filter (fun country => decide ¬ country.name = c.name) ≠ [] →
      ∃ conn ∈ l.foldl (forcedStep oracle activeCategory cats activeCountries) conns,
        conn.startCountry = c.name := by
  intro l
  induction l with
  | nil => intro conns c hc; exact absurd hc (List.not_mem_nil c)
  | cons iso rest ih =>
    intro conns c hc hpart
    rcases List.mem_cons.mp hc with rfl | hmem
    · have hne : ¬ (activeCountries.filter
          (fun country => decide ¬ country.name = c.name)).isEmpty = true := by
        simpa [List.isEmpty_iff] using hpart
      have hstep : ∃ e ∈ forcedStep oracle activeCategory cats activeCountries conns c,
          e.startCountry = c.name := by
        simp only [forcedStep, if_neg hne]
        exact ⟨_, List.mem_append_right _ (List.mem_singleton_self _), rfl⟩
      obtain ⟨e, he, hes⟩ := hstep
      exact ⟨e, mem_foldl_forcedStep oracle activeCategory cats activeCountries rest _ _ he,
        hes⟩
    · exact ih (forcedStep oracle activeCategory cats activeCountries conns iso) c hmem hpart

/-- In a ≥2-element list with pairwise-distinct names, every element has a
partner with a different name, so its partner filter is nonempty. -/
lemma partner_filter_ne_nil {l : List Country} (hnd : (l.map Country.name).Nodup)
    (h2 : 2 ≤ l.length) (c : Country) (hc : c ∈ l) :
    l.filter (fun country => decide ¬ country.name = c.name) ≠ [] := by
  match l, h2, hnd, hc with
  | a :: b :: t, _, hnd, hc =>
    have hs : (¬ a.name = b.name ∧ ∀ x ∈ t, ¬ x.name = a.name) ∧
        (∀ x ∈ t, ¬ x.name = b.name) ∧ (t.map Country.name).Nodup := by
      simpa using hnd
    have hab : a.name ≠ b.name := hs.1.1
    by_cases hca : a.name = c.name
    · have hbc : ¬ b.name = c.name := fun h => hab (by rw [hca, h])
      have hbmem : b ∈ (a :: b :: t).filter
          (fun country => decide ¬ country.name = c.name) :=
        List.mem_filter.mpr ⟨by simp, by simpa using hbc⟩
      exact List.ne_nil_of_mem hbmem
    · have hamem : a ∈ (a :: b :: t).filter
          (fun country => decide ¬ country.name = c.name) :=
        List.mem_filter.mpr ⟨by simp, by simpa using hca⟩
      exact List.ne_nil_of_mem hamem

/-- C1 (amended): if the dataset's names are pairwise distinct and at least
two dataset countries are enabled, then for every enabled dataset country
the output of `generateConnections` contains at least one connection whose
`startCountry` or `endCountry` is that country's name, for every outcome of
the random draws.  (The claim as frozen fails when fewer than two enabled
countries exist in the dataset.) -/
theorem generateConnections_no_orphans (countryData : List Country)
    (enabledCountriesSet : Finset String) (activeCategory : Option String)
    (cats : String → Option String) (oracle : RandomOracle) (c : Country)
    (hnd : (countryData.map Country.name).Nodup)
    (hc : c ∈ countryData.filter (fun country => decide (country.name ∈ enabledCountriesSet)))
    (h2 : 2 ≤ (countryData.filter
      (fun country => decide (country.name ∈ enabledCountriesSet))).length) :
    ∃ conn ∈ generateConnections countryData enabledCountriesSet activeCategory cats oracle,
      conn.startCountry = c.name ∨ conn.endCountry = c.name := by
  simp only [generateConnections]
  set A := countryData.filter
    (fun country => decide (country.name ∈ enabledCountriesSet)) with hA
  set lwm := decide (activeCategory = some "lone_wolf") with hlwm
  set st := (orderedPairs A).foldl (connStep oracle activeCategory cats lwm)
    ⟨[], fun _ => 0⟩ with hst
  have hAnodup : (A.map Country.name).Nodup :=
    hnd.sublist ((List.filter_sublist _).map _)
  by_cases hcnt : st.counters c.name = 0
  · have hiso : c ∈ A.filter (fun country => st.counters country.name == 0) :=
      List.mem_filter.mpr ⟨hc, by simp [hcnt]⟩
    obtain ⟨conn, hmem, hstart⟩ := foldl_forcedStep_touches oracle activeCategory cats A
      _ st.conns c hiso (partner_filter_ne_nil hAnodup h2 c hc)
    exact ⟨conn, hmem, Or.inl hstart⟩
  · have Hinit : ∀ n, (⟨[], fun _ => 0⟩ : GenState).counters n ≠ 0 →
        ∃ conn ∈ (⟨[], fun _ => 0⟩ : GenState).conns,
          conn.startCountry = n ∨ conn.endCountry = n := fun n hn => absurd rfl hn
    obtain ⟨conn, hmem, htouch⟩ := foldl_connStep_touch oracle activeCategory cats lwm
      (orderedPairs A) ⟨[], fun _ => 0⟩ Hinit c.name hcnt
    exact ⟨conn, mem_foldl_forcedStep oracle activeCategory cats A _ _ _ hmem, htouch⟩

/-- Witness for the amended C1: in a two-country dataset with both countries
enabled, the first country is touched by some output connection. -/
theorem generateConnections_no_orphans_witness :
    ∃ conn ∈ generateConnections [⟨"A", 1, 0, 0⟩, ⟨"B", 2, 50, 60⟩]
        ({"A", "B"} : Finset String) none (fun _ => none)
        ⟨fun _ _ => 0, fun _ _ => 0, fun _ => 0⟩,
      conn.startCountry = "A" ∨ conn.endCountry = "A" :=
  generateConnections_no_orphans _ _ _ _ _ ⟨"A", 1, 0, 0⟩ (by decide)
    (List.mem_filter.mpr ⟨List.mem_cons_self _ _, by decide⟩) (by decide)

/-- Counterexample to C1 as frozen: with a single-country dataset and that
country enabled, the output is empty, so the enabled country "A" touches no
connection. -/
theorem generateConnections_orphan_counterexample :
    "A" ∈ ({"A"} : Finset String) ∧
      generateConnections [⟨"A", 5, 10, 20⟩] {"A"} none (fun _ => none)
        ⟨fun _ _ => 0, fun _ _ => 0, fun _ => 0⟩ = [] :=
  ⟨by decide, generateConnections_eq_nil_of_active_le_one _ _ _ _ _ (by decide)⟩

/-! ## UI state (`ui.js`): enabled-country set and active category -/

/-- An entry of the category table: question text, member-country names,
display color. -/
structure CategoryInfo where
  question : String
  countries : List String
  color : String

/-- The module-level mutable UI state of `ui.js`: the `enabledCountries`
set and the `activeCategory` id. -/
structure UIState where
  enabledCountries : Finset String
  activeCategory : Option String

/-- `new Set(countryData.map(country => country.name))`. -/
def datasetNames (countryData : List Country) : Finset String :=
  (countryData.map Country.name).toFinset

/-- `initializeEnabledCountries(countryData)`: enable every dataset country
(the active category is untouched). -/
def initializeEnabledCountries (countryData : List Country) (s : UIState) : UIState :=
  { s with enabledCountries := datasetNames countryData }

/-- The state effect of a category item's click handler in
`populateCategoryList`: re-selecting the active category deselects it and
re-enables all countries; selecting a different category makes it active and
replaces the enabled set with the category's members that exist in the
dataset. -/
def clickCategory (countryData : List Country) (categoryId : String)
    (categoryData : CategoryInfo) (s : UIState) : UIState :=
  if s.activeCategory = some categoryId then
    { enabledCountries := datasetNames countryData, activeCategory := none }
  else
    let validCountries := categoryData.countries.filter
      (fun countryName => countryData.any (fun country => country.name = countryName))
    { enabledCountries := validCountries.toFinset, activeCategory := some categoryId }

/-- The state effect of a country item's click handler in
`populateCountryList`: clear the active category and toggle that country's
membership in the enabled set. -/
def clickCountry (country : Country) (s : UIState) : UIState :=
  { enabledCountries :=
      if country.name ∈ s.enabledCountries then s.enabledCountries.erase country.name
      else insert country.name s.enabledCountries,
    activeCategory := none }

/-- `selectAllCountries(countryData, ...)`: clear the category, enable all. -/
def selectAllCountries (countryData : List Country) (s : UIState) : UIState :=
  { enabledCountries := datasetNames countryData, activeCategory := none }

/-- `deselectAllCountries(countryData, ...)`: clear the category, enable none. -/
def deselectAllCountries (countryData : List Country) (s : UIState) : UIState :=
  { enabledCountries := ∅, activeCategory := none }

/-- C5: every mutation of the enabled set keeps it a subset of the dataset
names — initialization, a category click in either direction (selection or
deselection of the active category), a country toggle (the clicked item
always belongs to the dataset), select-all and deselect-all — and when the
click selects (the category is not currently active) the enabled set becomes
exactly the intersection of the category's member list with the dataset
names. -/
theorem enabled_subset_invariant (countryData : List Country) (s : UIState)
    (categoryId : String) (categoryData : CategoryInfo) (country : Country)
    (hsub : s.enabledCountries ⊆ datasetNames countryData)
    (hmem : country.name ∈ datasetNames countryData) :
    (initializeEnabledCountries countryData s).enabledCountries ⊆ datasetNames countryData ∧
    (clickCategory countryData categoryId categoryData s).enabledCountries ⊆
      datasetNames countryData ∧
    (clickCountry country s).enabledCountries ⊆ datasetNames countryData ∧
    (selectAllCountries countryData s).enabledCountries ⊆ datasetNames countryData ∧
    (deselectAllCountries countryData s).enabledCountries ⊆ datasetNames countryData ∧
    (s.activeCategory ≠ some categoryId →
      (clickCategory countryData categoryId categoryData s).enabledCountries =
        categoryData.countries.toFinset ∩ datasetNames countryData) := by
  have hvalid : (categoryData.countries.filter
      (fun countryName => countryData.any (fun country => country.name = countryName))).toFinset =
      categoryData.countries.toFinset ∩ datasetNames countryData := by
    ext n
    simp only [List.mem_toFinset, List.mem_filter, Finset.mem_inter, datasetNames,
      List.any_eq_true, decide_eq_true_eq, List.mem_map]
  refine ⟨Finset.Subset.refl _, ?_, ?_, Finset.Subset.refl _, Finset.empty_subset _, ?_⟩
  · simp only [clickCategory]
    by_cases h : s.activeCategory = some categoryId
    · rw [if_pos h]
    · rw [if_neg h]
      intro n hn
      simp only [List.mem_toFinset, List.mem_filter, List.any_eq_true,
        decide_eq_true_eq] at hn
      obtain ⟨_, country, hcd, hname⟩ := hn
      simp only [datasetNames, List.mem_toFinset, List.mem_map]
      exact ⟨country, hcd, hname⟩
  · simp only [clickCountry]
    by_cases h : country.name ∈ s.enabledCountries
    · rw [if_pos h]
      exact (Finset.erase_subset _ _).trans hsub
    · rw [if_neg h]
      exact Finset.insert_subset hmem hsub
  · intro hne
    simp only [clickCategory, if_neg hne]
    exact hvalid

/-- Witness for C5: the invariant at a concrete one-country dataset, a
category listing that country and a stranger, and the dataset country as the
toggled item. -/
theorem enabled_subset_invariant_witness :
    (clickCategory [⟨"A", 3, 0, 0⟩] "europe" ⟨"q", ["A", "Z"], "#fff"⟩
        ⟨{"A"}, none⟩).enabledCountries =
      (["A", "Z"] : List String).toFinset ∩ datasetNames [⟨"A", 3, 0, 0⟩] :=
  (enabled_subset_invariant [⟨"A", 3, 0, 0⟩] ⟨{"A"}, none⟩ "europe"
    ⟨"q", ["A", "Z"], "#fff"⟩ ⟨"A", 3, 0, 0⟩ (by decide)
    (by decide)).2.2.2.2.2 (by decide)

/-- C6: selecting a category that is not currently active and then
immediately re-selecting it leaves the active category `null` and restores
the enabled set to the full dataset names, whatever the enabled set was
before. -/
theorem clickCategory_select_deselect_roundtrip (countryData : List Country)
    (categoryId : String) (categoryData : CategoryInfo) (s : UIState)
    (hne : s.activeCategory ≠ some categoryId) :
    clickCategory countryData categoryId categoryData
        (clickCategory countryData categoryId categoryData s) =
      ⟨datasetNames countryData, none⟩ := by
  simp only [clickCategory, if_neg hne]
  rw [if_pos trivial]

/-- Witness for C6: the round-trip at a concrete dataset and category,
starting from an ad-hoc enabled set with no active category. -/
theorem clickCategory_select_deselect_roundtrip_witness :
    clickCategory [⟨"A", 3, 0, 0⟩, ⟨"B", 4, 1, 1⟩] "africa" ⟨"q", ["B"], "#fff"⟩
        (clickCategory [⟨"A", 3, 0, 0⟩, ⟨"B", 4, 1, 1⟩] "africa" ⟨"q", ["B"], "#fff"⟩
          ⟨{"B"}, none⟩) =
      ⟨datasetNames [⟨"A", 3, 0, 0⟩, ⟨"B", 4, 1, 1⟩], none⟩ :=
  clickCategory_select_deselect_roundtrip _ _ _ _ (by decide)

/-! ## Orbiting astronauts (`astronauts.js`) -/

/-- One value of the `astronautOrbiters` map: scene handles (modelled as
numeric ids), orbit radius, randomized speed, country name, and the
outward surface normal. -/
structure Orbiter where
  pivot : ℕ
  astronaut : ℕ
  orbitRadius : ℝ
  speed : ℝ
  country : String
  normal : ℝ × ℝ × ℝ

/-- The orbiter module's state: the name-keyed `astronautOrbiters` map
(as an insertion-ordered association list) and the pivots attached to the
scene. -/
structure AstroState where
  orbiters : List (String × Orbiter)
  scene : List ℕ

/-- `addOrbitingAstronaut(country, globe, THREE, getPointSize)` with the
globe radius `R` supplied by the collaborator, the `Math.random()` speed
draw supplied as `rnd`, and the freshly created scene handles as
`pivotId`/`astronautId`. -/
noncomputable def addOrbitingAstronaut (country : Country) (R : ℝ)
    (getPointSize : ℕ → ℝ) (rnd : ℝ) (pivotId astronautId : ℕ)
    (s : AstroState) : AstroState :=
  if s.orbiters.any (fun e => e.1 = country.name) then s
  else
    let altFrac := getPointSize country.count * 0.2
    let cylinderHeight := R * altFrac
    let midCylinderRadius := R + cylinderHeight / 2
    let phi := country.lat * Real.pi / 180
    let theta := country.lng * Real.pi / 180
    let normal := (Real.cos phi * Real.sin theta, Real.sin phi, Real.cos phi * Real.cos theta)
    let orbitRadius : ℝ := 2.5
    { orbiters := s.orbiters ++
        [(country.name, ⟨pivotId, astronautId, orbitRadius, 1.0 + rnd * 0.5,
          country.name, normal⟩)],
      scene := s.scene ++ [pivotId] }

/-- C9: when an orbiter is already registered under the country's name,
`addOrbitingAstronaut` is a no-op: the registry and the scene are unchanged,
so no second entry is created for that name. -/
theorem addOrbitingAstronaut_idempotent (country : Country) (R : ℝ)
    (getPointSize : ℕ → ℝ) (rnd : ℝ) (pivotId astronautId : ℕ) (s : AstroState)
    (h : s.orbiters.any (fun e => e.1 = country.name) = true) :
    addOrbitingAstronaut country R getPointSize rnd pivotId astronautId s = s := by
  simp only [addOrbitingAstronaut, if_pos h]

/-- Witness for C9: adding an orbiter for a country that already has one
changes nothing. -/
theorem addOrbitingAstronaut_idempotent_witness :
    addOrbitingAstronaut ⟨"A", 1, 0, 0⟩ 100 (fun _ => 0.3) 0 7 8
        ⟨[("A", ⟨1, 2, 2.5, 1.0, "A", (0, 0, 1)⟩)], [1]⟩ =
      ⟨[("A", ⟨1, 2, 2.5, 1.0, "A", (0, 0, 1)⟩)], [1]⟩ :=
  addOrbitingAstronaut_idempotent _ _ _ _ _ _ _ (by decide)

/-! ## Airplane-flight choreography (`animations.js`)

The module's timer/listener bookkeeping is modelled as a transition system.
Each call to `startAirplaneFlight` creates a session, identified by a fresh
number.  A session first sits in `pendingStarts` (its 1600 ms `setTimeout`
is scheduled but has not fired); when the timeout fires, its
`requestAnimationFrame` loop starts (`activeLoops`), its cancel handle is
stored in `airplaneFlightInterval`, and its input-interruption listeners
are attached to the canvas and tracked in `userInteractionListeners`
(the three listeners of one session are attached and removed together, so
they are modelled as one group per session). -/

/-- The bookkeeping state of the animations module together with the
browser-side callback queues it drives. -/
structure AnimState where
  airplaneFlightInterval : Option ℕ
  userInteractionListeners : Option ℕ
  attachedListeners : List ℕ
  pendingStarts : List ℕ
  activeLoops : List ℕ
  nextSession : ℕ
deriving DecidableEq

/-- `stopAirplaneFlight()`: cancel the stored frame-callback handle, if any,
and remove the tracked input listeners, if any. -/
def stopAirplaneFlight (s : AnimState) : AnimState :=
  let s1 :=
    match s.airplaneFlightInterval with
    | some sid =>
      { s with
          activeLoops := s.activeLoops.erase sid,
          airplaneFlightInterval := none }
    | none => s
  match s1.userInteractionListeners with
  | some sid =>
    { s1 with
        attachedListeners := s1.attachedListeners.erase sid,
        userInteractionListeners := none }
  | none => s1

/-- `startAirplaneFlight(globe, countryData, startPOV)`: if lone-wolf
countries exist, schedule the 1600 ms `setTimeout` that will later start the
frame loop, store the cancel handle, and attach the interruption listeners. -/
def startAirplaneFlight (hasLoneWolfCountries : Bool) (s : AnimState) : AnimState :=
  if hasLoneWolfCountries then
    { s with
        pendingStarts := s.pendingStarts ++ [s.nextSession],
        nextSession := s.nextSession + 1 }
  else s

/-- `animateCategorySelection(categoryId, ...)`: always stop any existing
flight first; for the lone-wolf category then start a new flight. -/
def animateCategorySelection (isLoneWolf hasLoneWolfCountries : Bool)
    (s : AnimState) : AnimState :=
  let s1 := stopAirplaneFlight s
  if isLoneWolf then startAirplaneFlight hasLoneWolfCountries s1 else s1

/-- The browser fires the oldest scheduled 1600 ms `setTimeout`: the
session's `requestAnimationFrame` loop starts, the session's cancel handle
overwrites `airplaneFlightInterval`, and `setupUserInteractionDetection`
overwrites `userInteractionListeners` with the new session's listeners
(without removing previously attached ones). -/
def fireStartTimeout (s : AnimState) : AnimState :=
  match s.pendingStarts with
  | [] => s
  | sid :: rest =>
    { s with
        pendingStarts := rest,
        activeLoops := s.activeLoops ++ [sid],
        airplaneFlightInterval := some sid,
        userInteractionListeners := some sid,
        attachedListeners := s.attachedListeners ++ [sid] }

/-- A UI/browser event relevant to the flight choreography. -/
inductive AnimEvent where
  | selectCategory (isLoneWolf hasLoneWolfCountries : Bool)
  | deselectCategory
  | startTimeoutFires
  | userInteracts

/-- One transition of the choreography system.  Deselecting the active
category (and likewise a country toggle or select/deselect-all) calls
`stopAirplaneFlight()` directly; a user interaction reaches
`onInteractionStart` (which calls `stopAirplaneFlight`) whenever at least
one interruption listener is attached to the canvas. -/
def animStep (s : AnimState) : AnimEvent → AnimState
  | .selectCategory isLW hasLW => animateCategorySelection isLW hasLW s
  | .deselectCategory => stopAirplaneFlight s
  | .startTimeoutFires => fireStartTimeout s
  | .userInteracts => if s.attachedListeners.isEmpty then s else stopAirplaneFlight s

/-- The initial module state: no stored handle, no listeners, nothing
scheduled. -/
def animInit : AnimState := ⟨none, none, [], [], [], 0⟩

/-- C2 fails on the code: selecting the lone-wolf category, deselecting it,
and re-selecting it within the 1600 ms pending window, followed by the two
pending `setTimeout`s firing, leaves TWO `requestAnimationFrame` loops
driving the camera at once — the stop calls cancelled nothing because the
first session's handle had not been stored yet, and the second session's
handle then overwrote the first's.  Even a further `stopAirplaneFlight` can
cancel only one of the loops, and the first session's listener group is
left attached while untracked. -/
theorem airplane_two_active_loops_counterexample :
    (([AnimEvent.selectCategory true true, AnimEvent.deselectCategory,
        AnimEvent.selectCategory true true,
        AnimEvent.startTimeoutFires, AnimEvent.startTimeoutFires].foldl animStep
        animInit).activeLoops = [0, 1]) ∧
    ((stopAirplaneFlight ([AnimEvent.selectCategory true true,
        AnimEvent.deselectCategory, AnimEvent.selectCategory true true,
        AnimEvent.startTimeoutFires,
        AnimEvent.startTimeoutFires].foldl animStep animInit)).activeLoops = [0]) ∧
    ((stopAirplaneFlight ([AnimEvent.selectCategory true true,
        AnimEvent.deselectCategory, AnimEvent.selectCategory true true,
        AnimEvent.startTimeoutFires,
        AnimEvent.startTimeoutFires].foldl animStep animInit)).attachedListeners = [0]) := by
  decide

end Superside
